import Mathlib

/-!
Verification of the Containerized workload reconciler
(`pkg/controller/v1alpha1/containerized/containerized_controller.go`).

The Go controller renders two child resources (a Deployment and a Service)
from a `Containerized` workload and applies them through the cluster client.
Pure rendering logic is embedded directly.  Calls into external libraries
(the cluster-state client, `ctrl.SetControllerReference`,
`util.PatchCondition`, the event recorder) are modelled by an environment
record holding each call's outcome, and `Reconcile` is a function from that
environment to the observable trace of the cycle (returned result, returned
error, emitted events, patched conditions, successful status writes).
-/

/-- Association-list lookup giving the map semantics of a Go
`map[string]string`: the first binding of a key wins. -/
def lookupKey : List (String × String) → String → Option String
  | [], _ => none
  | p :: rest, k => if p.1 = k then some p.2 else lookupKey rest k

/-- Wrap-around of Go `int32` arithmetic (the `servicePort` counter is an
`int32` incremented with `++`). -/
def wrap32 (x : Int) : Int := (x + 2147483648) % 4294967296 - 2147483648

/-- Error string `errRenderDeployment` from the controller. -/
def errRenderDeployment : String := "cannot render deployment"

/-- Error string `errRenderService` from the controller. -/
def errRenderService : String := "cannot render service"

/-- Error string `errApplyDeployment` from the controller. -/
def errApplyDeployment : String := "cannot apply the deployment"

/-- Error string `errApplyService` from the controller. -/
def errApplyService : String := "cannot apply the service"

/-- Kind name of the Deployment child; in Go obtained by reflection as
`reflect.TypeOf(appsv1.Deployment{}).Name()`. -/
def deploymentKind : String := "Deployment"

/-- API version of the Deployment child, `appsv1.SchemeGroupVersion.String()`. -/
def deploymentAPIVersion : String := "apps/v1"

/-- Kind name of the Service child, `reflect.TypeOf(corev1.Service{}).Name()`. -/
def serviceKind : String := "Service"

/-- API version of the Service child, `corev1.SchemeGroupVersion.String()`. -/
def serviceAPIVersion : String := "v1"

/-- The injected selector label key, `component.oam.dev/name`. -/
def labelNameKey : String := "component.oam.dev/name"

/-- A container port declaration (`corev1.ContainerPort`): the fields the
controller reads. -/
structure ContainerPort where
  name : String
  protocol : String
  containerPort : Int
deriving DecidableEq, Repr

/-- A container of the pod template; the controller reads only its ports,
other content is carried opaquely by `image`. -/
structure Container where
  image : String
  ports : List ContainerPort
deriving DecidableEq, Repr

/-- A pod specification (`corev1.PodSpec`): its container list. -/
structure PodSpec where
  containers : List Container
deriving DecidableEq, Repr

/-- A typed reference recorded in the workload status
(`cpv1alpha1.TypedReference`). -/
structure TypedReference where
  apiVersion : String
  kind : String
  name : String
  uid : String
deriving DecidableEq, Repr

/-- Modelled from the spec: the user-facing `v1alpha1.Containerized` type
(its Go definition lives in `api/v1alpha1`, outside `src/`): identity
(name, namespace), user labels and annotations (`annos`), a desired replica
count, a pod template and a unique identifier. -/
structure Containerized where
  name : String
  ns : String
  labels : List (String × String)
  annos : List (String × String)
  replicas : Option Int
  podSpec : PodSpec
  uid : String
deriving DecidableEq, Repr

/-- A label selector (`metav1.LabelSelector`), match-labels only. -/
structure LabelSelector where
  matchLabels : List (String × String)
deriving DecidableEq, Repr

/-- A pod template (`corev1.PodTemplateSpec`): object metadata labels and
annotations plus the pod spec. -/
structure PodTemplateSpec where
  labels : List (String × String)
  annos : List (String × String)
  spec : PodSpec
deriving DecidableEq, Repr

/-- The rendered Deployment child (`appsv1.Deployment`), restricted to the
fields the controller writes. -/
structure Deployment where
  kind : String
  apiVersion : String
  name : String
  ns : String
  labels : List (String × String)
  annos : List (String × String)
  replicas : Option Int
  selector : LabelSelector
  template : PodTemplateSpec
deriving DecidableEq, Repr

/-- A service port (`corev1.ServicePort`) as built by the controller. -/
structure ServicePort where
  name : String
  protocol : String
  port : Int
  targetPort : Int
deriving DecidableEq, Repr

/-- The rendered Service child (`corev1.Service`), restricted to the fields
the controller writes.  `ports` is an `Option` to mirror a Go slice's
nil / initialized-empty distinction: the renderer explicitly initializes it
to `some []`. -/
structure Service where
  kind : String
  apiVersion : String
  name : String
  ns : String
  labels : List (String × String)
  annos : List (String × String)
  selector : List (String × String)
  ports : Option (List ServicePort)
  serviceType : String
deriving DecidableEq, Repr

/-- Modelled from the spec: `util.PassLabelAndAnnotation` (OAM runtime
library, not part of this repository's `src/`) copies the workload's labels
and annotations onto a child resource "without overwriting the injected
selector label": an entry already present on the child takes precedence,
entries of the source whose key is absent from the child are appended. -/
def mergeKeepDst (src dst : List (String × String)) : List (String × String) :=
  dst ++ src.filter (fun p => (lookupKey dst p.1).isNone)

/-- The pure part of `renderDeployment`: builds the Deployment from the
workload, injecting the `component.oam.dev/name = workload.name` label into
the selector and the pod-template labels, then passes the workload's labels
and annotations through to the deployment and to the pod template. -/
def renderDeployment (w : Containerized) : Deployment :=
  let deploy : Deployment :=
    { kind := deploymentKind
      apiVersion := deploymentAPIVersion
      name := w.name
      ns := w.ns
      labels := []
      annos := []
      replicas := w.replicas
      selector := { matchLabels := [(labelNameKey, w.name)] }
      template :=
        { labels := [(labelNameKey, w.name)]
          annos := []
          spec := w.podSpec } }
  let deploy :=
    { deploy with
        labels := mergeKeepDst w.labels deploy.labels
        annos := mergeKeepDst w.annos deploy.annos }
  { deploy with
      template :=
        { deploy.template with
            labels := mergeKeepDst w.labels deploy.template.labels
            annos := mergeKeepDst w.annos deploy.template.annos } }

/-- One iteration of the inner loop of `renderService`: append a service
port named and protocolled after the container port, exposed at the current
counter value, targeting the declared container port, then increment the
`int32` counter. -/
def pushPort (acc : List ServicePort × Int) (p : ContainerPort) :
    List ServicePort × Int :=
  (acc.1 ++
      [{ name := p.name
         protocol := p.protocol
         port := acc.2
         targetPort := p.containerPort }],
    wrap32 (acc.2 + 1))

/-- The pure part of `renderService`: a ClusterIP service selecting the
injected label, with one port per declared container port, the counter
starting at 8080. -/
def renderService (w : Containerized) : Service :=
  let service : Service :=
    { kind := serviceKind
      apiVersion := serviceAPIVersion
      name := w.name
      ns := w.ns
      labels := [(labelNameKey, w.name)]
      annos := []
      selector := [(labelNameKey, w.name)]
      ports := some []
      serviceType := "ClusterIP" }
  let final :=
    w.podSpec.containers.foldl
      (fun acc c => c.ports.foldl pushPort acc)
      ((service.ports.getD []), 8080)
  { service with ports := some final.1 }

/-- Outcome of fetching the workload from the store: found, not found, or
another read error (`client.IgnoreNotFound` swallows only the second). -/
inductive FetchOutcome
  | ok (w : Containerized)
  | notFound
  | otherErr (e : String)
deriving DecidableEq, Repr

/-- Outcomes of the external calls a reconciliation cycle makes.
`ctrl.SetControllerReference` (the ownership binder) and the client's
`Patch` / `Status().Update` / `util.PatchCondition` are library code, so
whether each fails — and which unique identifier the store assigns on a
successful apply — is an input of the model. -/
structure Env where
  fetch : FetchOutcome
  bindDeployment : Option String
  applyDeployment : Except String String
  bindService : Option String
  applyService : Except String String
  statusUpdate : Option String
  patchCondition : Option String
deriving Repr

/-- `renderDeployment` as called by `Reconcile`: the built deployment, or
the ownership-binding error when `ctrl.SetControllerReference` fails. -/
def renderDeploymentR (w : Containerized) (bindErr : Option String) :
    Except String Deployment :=
  match bindErr with
  | some e => Except.error e
  | none => Except.ok (renderDeployment w)

/-- `renderService` as called by `Reconcile`: the built service, or the
ownership-binding error when `ctrl.SetControllerReference` fails. -/
def renderServiceR (w : Containerized) (bindErr : Option String) :
    Except String Service :=
  match bindErr with
  | some e => Except.error e
  | none => Except.ok (renderService w)

/-- An event emitted through the recorder: a warning carrying an error
classification, or a normal event with a reason and message. -/
inductive REvent
  | warning (reason : String) (err : String)
  | normal (reason : String) (msg : String)
deriving DecidableEq, Repr

/-- A condition patched onto the workload status via `util.PatchCondition`:
`cpv1alpha1.ReconcileError` wrapping a classification, or
`cpv1alpha1.ReconcileSuccess`. Modelled from the spec: `util.PatchCondition`
persists only the condition, it does not touch the status resource list. -/
inductive Condition
  | reconcileError (classification : String) (err : String)
  | reconcileSuccess
deriving DecidableEq, Repr

/-- A `ctrl.Result`: whether to requeue and after which delay. -/
structure CtrlResult where
  requeue : Bool
  requeueAfter : Nat
deriving DecidableEq, Repr

/-- Modelled from the spec: `util.ReconcileWaitResult` is a requeue after a
fixed backoff delay, an external policy constant. -/
def longWait : Nat := 60

/-- The result returned on every error branch: requeue after `longWait`. -/
def reconcileWaitResult : CtrlResult := { requeue := false, requeueAfter := longWait }

/-- The empty `ctrl.Result\x7b\x7d`: done, no requeue. -/
def doneResult : CtrlResult := { requeue := false, requeueAfter := 0 }

/-- The observable trace of one reconciliation cycle: the returned
`ctrl.Result` and error, the events emitted, the conditions patched, and
the resource lists successfully written by `Status().Update` (in order). -/
structure ReconcileOutcome where
  result : CtrlResult
  err : Option String
  events : List REvent
  conditions : List Condition
  statusWrites : List (List TypedReference)
deriving DecidableEq, Repr

/-- The reconciliation cycle of the controller, step for step: fetch the
workload (not-found exits cleanly), render and apply the Deployment, render
and apply the Service, record the two typed references, update the status,
patch the success condition.  Every error branch returns
`reconcileWaitResult` together with the classification events and
conditions the Go code emits there — including the Go code's use of the
`errApplyDeployment` classification in the warning event of the
service-apply failure branch. -/
def Reconcile (env : Env) : ReconcileOutcome :=
  match env.fetch with
  | FetchOutcome.notFound =>
    { result := doneResult, err := none, events := [], conditions := [], statusWrites := [] }
  | FetchOutcome.otherErr e =>
    { result := doneResult, err := some e, events := [], conditions := [], statusWrites := [] }
  | FetchOutcome.ok w =>
    match renderDeploymentR w env.bindDeployment with
    | Except.error e =>
      { result := reconcileWaitResult
        err := env.patchCondition
        events := [REvent.warning errRenderDeployment e]
        conditions := [Condition.reconcileError errRenderDeployment e]
        statusWrites := [] }
    | Except.ok deploy =>
      match env.applyDeployment with
      | Except.error e =>
        { result := reconcileWaitResult
          err := env.patchCondition
          events := [REvent.warning errApplyDeployment e]
          conditions := [Condition.reconcileError errApplyDeployment e]
          statusWrites := [] }
      | Except.ok deployUID =>
        let ev1 := REvent.normal "Deployment created"
          ("Workload " ++ w.name ++ " successfully patched a deployment " ++ deploy.name)
        match renderServiceR w env.bindService with
        | Except.error e =>
          { result := reconcileWaitResult
            err := env.patchCondition
            events := [ev1, REvent.warning errRenderService e]
            conditions := [Condition.reconcileError errRenderService e]
            statusWrites := [] }
        | Except.ok service =>
          match env.applyService with
          | Except.error e =>
            { result := reconcileWaitResult
              err := env.patchCondition
              events := [ev1, REvent.warning errApplyDeployment e]
              conditions := [Condition.reconcileError errApplyService e]
              statusWrites := [] }
          | Except.ok serviceUID =>
            let ev2 := REvent.normal "Service created"
              ("Workload " ++ w.name ++ " successfully server side patched a service " ++ service.name)
            let refs : List TypedReference :=
              [{ apiVersion := deploy.apiVersion
                 kind := deploy.kind
                 name := deploy.name
                 uid := deployUID },
               { apiVersion := service.apiVersion
                 kind := service.kind
                 name := service.name
                 uid := serviceUID }]
            match env.statusUpdate with
            | some e =>
              { result := reconcileWaitResult
                err := some e
                events := [ev1, ev2]
                conditions := []
                statusWrites := [] }
            | none =>
              { result := doneResult
                err := env.patchCondition
                events := [ev1, ev2]
                conditions := [Condition.reconcileSuccess]
                statusWrites := [refs] }

/-- The workload-status resource list after the cycle, given its content
before the cycle (`none` when no cycle ever wrote it): each successful
status write replaces the list in full. -/
def resourcesAfter (o : ReconcileOutcome) (prev : Option (List TypedReference)) :
    Option (List TypedReference) :=
  o.statusWrites.foldl (fun _ wr => some wr) prev

/-- The spec's description of the service port list: one entry per declared
container port in order, the externally-exposed number assigned sequentially
from the given counter (with `int32` wrap-around), the target the declared
container port, name and protocol copied verbatim.  Compared against the
renderer's nested loop. -/
def portsFromSpec : List ContainerPort → Int → List ServicePort
  | [], _ => []
  | p :: ps, sp =>
    { name := p.name, protocol := p.protocol, port := sp, targetPort := p.containerPort }
      :: portsFromSpec ps (wrap32 (sp + 1))

/-- Value of the `servicePort` counter after processing a list of container
ports. -/
def nextCounter : List ContainerPort → Int → Int
  | [], sp => sp
  | _ :: ps, sp => nextCounter ps (wrap32 (sp + 1))

/-- Example workload of the determinism property: two containers declaring
ports [80, 81] and [443]. -/
def wPortsEx : Containerized :=
  { name := "web"
    ns := "default"
    labels := []
    annos := []
    replicas := some 3
    podSpec :=
      { containers :=
          [{ image := "a"
             ports := [{ name := "p80", protocol := "TCP", containerPort := 80 },
                       { name := "p81", protocol := "TCP", containerPort := 81 }] },
           { image := "b"
             ports := [{ name := "p443", protocol := "TCP", containerPort := 443 }] }] }
    uid := "uid-ex" }

/-- Workload carrying user labels (one under the injected key) and a user
annotation entry. -/
def wLabeled : Containerized :=
  { name := "web"
    ns := "default"
    labels := [("app", "x"), (labelNameKey, "rogue")]
    annos := [("owner", "alice")]
    replicas := some 1
    podSpec := { containers := [] }
    uid := "uid-l" }

/-- Workload with a single container declaring no ports. -/
def wNoPorts : Containerized :=
  { name := "quiet"
    ns := "default"
    labels := []
    annos := []
    replicas := some 1
    podSpec := { containers := [{ image := "a", ports := [] }] }
    uid := "uid-n" }

/-- Plain workload named `web` used by the reconcile fixtures. -/
def wWeb : Containerized :=
  { name := "web"
    ns := "default"
    labels := []
    annos := []
    replicas := some 3
    podSpec :=
      { containers :=
          [{ image := "nginx"
             ports := [{ name := "http", protocol := "TCP", containerPort := 8080 }] }] }
    uid := "uid-web" }

/-- Second workload, distinct name from `wWeb`. -/
def wApi : Containerized :=
  { name := "api"
    ns := "default"
    labels := []
    annos := []
    replicas := some 2
    podSpec := { containers := [] }
    uid := "uid-api" }

/-- Environment in which every external call succeeds. -/
def envAllOk : Env :=
  { fetch := FetchOutcome.ok wWeb
    bindDeployment := none
    applyDeployment := Except.ok "uid-d"
    bindService := none
    applyService := Except.ok "uid-s"
    statusUpdate := none
    patchCondition := none }

/-- Environment in which applying the service fails after the deployment was
applied successfully. -/
def envSvcFail : Env := { envAllOk with applyService := Except.error "store unreachable" }

/-- Environment in which the workload is not found in the store. -/
def envNotFound : Env := { envAllOk with fetch := FetchOutcome.notFound }

/-- Environment in which binding ownership of the deployment fails. -/
def envBindFail : Env :=
  { envAllOk with bindDeployment := some "owner lacks a unique identifier" }

/-- Wrapping a value that is already wrapped before adding changes nothing. -/
theorem wrap32_wrap32_add (x y : Int) : wrap32 (wrap32 x + y) = wrap32 (x + y) := by
  unfold wrap32
  omega

/-- Wrap-around is idempotent. -/
theorem wrap32_idem (x : Int) : wrap32 (wrap32 x) = wrap32 x := by
  have h := wrap32_wrap32_add x 0
  simpa using h

/-- Lookup in an appended association list tries the left part first. -/
theorem lookupKey_append (l₁ l₂ : List (String × String)) (k : String) :
    lookupKey (l₁ ++ l₂) k =
      match lookupKey l₁ k with
      | some v => some v
      | none => lookupKey l₂ k := by
  induction l₁ with
  | nil => simp [lookupKey]
  | cons p rest ih =>
    by_cases h : p.1 = k
    · simp [lookupKey, h]
    · simp [lookupKey, h, ih]

/-- Dropping the bindings whose key is bound in `dst` does not change lookup
at a key unbound in `dst`. -/
theorem lookupKey_filter_unbound (src dst : List (String × String)) (k : String)
    (h : lookupKey dst k = none) :
    lookupKey (src.filter fun p => (lookupKey dst p.1).isNone) k = lookupKey src k := by
  induction src with
  | nil => simp [lookupKey]
  | cons p rest ih =>
    by_cases hk : p.1 = k
    · subst hk
      simp [List.filter_cons, h, lookupKey]
    · cases hb : lookupKey dst p.1 with
      | some v => simp [List.filter_cons, hb, lookupKey, hk, ih]
      | none => simp [List.filter_cons, hb, lookupKey, hk, ih]

/-- Lookup through `mergeKeepDst`: the destination's binding wins, otherwise
the source's binding is used. -/
theorem lookupKey_mergeKeepDst (src dst : List (String × String)) (k : String) :
    lookupKey (mergeKeepDst src dst) k =
      match lookupKey dst k with
      | some v => some v
      | none => lookupKey src k := by
  unfold mergeKeepDst
  rw [lookupKey_append]
  cases h : lookupKey dst k with
  | some v => rfl
  | none => simp [lookupKey_filter_unbound src dst k h]

/-- The inner loop of `renderService` over one container's port list computes
the spec-side port list and advances the counter accordingly. -/
theorem foldl_pushPort (ps : List ContainerPort) (l : List ServicePort) (sp : Int) :
    ps.foldl pushPort (l, sp) = (l ++ portsFromSpec ps sp, nextCounter ps sp) := by
  induction ps generalizing l sp with
  | nil => simp [portsFromSpec, nextCounter]
  | cons p ps ih =>
    simp [List.foldl_cons, pushPort, portsFromSpec, nextCounter, ih, List.append_assoc]

/-- Spec-side port list of a concatenation: the second part continues at the
counter left by the first. -/
theorem portsFromSpec_append (ps qs : List ContainerPort) (sp : Int) :
    portsFromSpec (ps ++ qs) sp
      = portsFromSpec ps sp ++ portsFromSpec qs (nextCounter ps sp) := by
  induction ps generalizing sp with
  | nil => simp [portsFromSpec, nextCounter]
  | cons p ps ih => simp [portsFromSpec, nextCounter, ih]

/-- `nextCounter` over a concatenation composes. -/
theorem nextCounter_append (ps qs : List ContainerPort) (sp : Int) :
    nextCounter (ps ++ qs) sp = nextCounter qs (nextCounter ps sp) := by
  induction ps generalizing sp with
  | nil => simp [nextCounter]
  | cons p ps ih => simp [nextCounter, ih]

/-- The nested loop of `renderService` over all containers equals the
spec-side port list of the flattened port declarations. -/
theorem foldl_containers (cs : List Container) (l : List ServicePort) (sp : Int) :
    cs.foldl (fun acc c => c.ports.foldl pushPort acc) (l, sp)
      = (l ++ portsFromSpec (cs.flatMap Container.ports) sp,
          nextCounter (cs.flatMap Container.ports) sp) := by
  induction cs generalizing l sp with
  | nil => simp [portsFromSpec, nextCounter]
  | cons c cs ih =>
    simp [List.foldl_cons, foldl_pushPort, ih, List.flatMap_cons,
      portsFromSpec_append, nextCounter_append, List.append_assoc]

/-- The rendered service's port list is the spec-side port list of all
declared container ports, started at 8080. -/
theorem renderService_ports (w : Containerized) :
    (renderService w).ports
      = some (portsFromSpec (w.podSpec.containers.flatMap Container.ports) 8080) := by
  unfold renderService
  simp [foldl_containers]

/-- Element-wise reading of the spec-side port list: the k-th entry exposes
`wrap32 (sp + k)` and copies the k-th declared port's fields. -/
theorem portsFromSpec_get (ps : List ContainerPort) (sp : Int) (k : Nat)
    (h : wrap32 sp = sp) :
    (portsFromSpec ps sp)[k]?
      = (ps[k]?).map (fun p =>
          { name := p.name, protocol := p.protocol,
            port := wrap32 (sp + k), targetPort := p.containerPort }) := by
  induction ps generalizing sp k with
  | nil => simp [portsFromSpec]
  | cons p ps ih =>
    cases k with
    | zero => simp [portsFromSpec, h]
    | succ k =>
      have h2 : wrap32 (wrap32 (sp + 1)) = wrap32 (sp + 1) := wrap32_idem _
      have hk : sp + 1 + (k : Int) = sp + ((k + 1 : Nat) : Int) := by push_cast; ring
      simp [portsFromSpec, ih (wrap32 (sp + 1)) k h2, wrap32_wrap32_add, hk]

/-- Projection: the rendered deployment's selector is the injected label. -/
theorem renderDeployment_selector (w : Containerized) :
    (renderDeployment w).selector = { matchLabels := [(labelNameKey, w.name)] } := rfl

/-- Projection: the rendered deployment's top-level labels. -/
theorem renderDeployment_labels (w : Containerized) :
    (renderDeployment w).labels = mergeKeepDst w.labels [] := rfl

/-- Projection: the rendered deployment's top-level annotation entries. -/
theorem renderDeployment_annos (w : Containerized) :
    (renderDeployment w).annos = mergeKeepDst w.annos [] := rfl

/-- Projection: the rendered deployment's pod-template labels. -/
theorem renderDeployment_template_labels (w : Containerized) :
    (renderDeployment w).template.labels
      = mergeKeepDst w.labels [(labelNameKey, w.name)] := rfl

/-- Projection: the rendered deployment's pod-template annotation entries. -/
theorem renderDeployment_template_annos (w : Containerized) :
    (renderDeployment w).template.annos = mergeKeepDst w.annos [] := rfl

/-- Projection: the rendered service's type field. -/
theorem renderService_serviceType (w : Containerized) :
    (renderService w).serviceType = "ClusterIP" := rfl

/-- C1: for every workload, `renderService` produces exactly one service port
per declared container port, iterating containers and each container's ports
in declaration order; the externally-exposed number is assigned sequentially
starting at 8080 and incremented by 1 per port processed (as Go int32
arithmetic), the target port is the container's declared port number, and
name and protocol are copied verbatim.  On the workload with container port
lists [80, 81] and [443] the result is external 8080 targeting 80, external
8081 targeting 81, external 8082 targeting 443, in that order. -/
theorem renderService_one_port_per_declared_port :
    (∀ w : Containerized,
      (renderService w).ports
        = some (portsFromSpec (w.podSpec.containers.flatMap Container.ports) 8080))
    ∧ (∀ (w : Containerized) (k : Nat),
      ((renderService w).ports.getD [])[k]?
        = ((w.podSpec.containers.flatMap Container.ports)[k]?).map
            (fun p => { name := p.name, protocol := p.protocol,
                        port := wrap32 (8080 + (k : Int)),
                        targetPort := p.containerPort }))
    ∧ (renderService wPortsEx).ports
        = some [{ name := "p80", protocol := "TCP", port := 8080, targetPort := 80 },
                { name := "p81", protocol := "TCP", port := 8081, targetPort := 81 },
                { name := "p443", protocol := "TCP", port := 8082, targetPort := 443 }] := by
  refine ⟨renderService_ports, ?_, by decide⟩
  intro w k
  have h := portsFromSpec_get (w.podSpec.containers.flatMap Container.ports) 8080 k (by decide)
  rw [renderService_ports]
  simpa using h

/-- C10: every rendered service is of type ClusterIP, and a workload whose
containers declare no ports at all yields an initialized, empty port list
(`some []`, not `none`). -/
theorem renderService_clusterIP_defaults (w : Containerized) :
    (renderService w).serviceType = "ClusterIP"
    ∧ (w.podSpec.containers.flatMap Container.ports = [] →
        (renderService w).ports = some []) := by
  refine ⟨renderService_serviceType w, fun h => ?_⟩
  rw [renderService_ports, h]
  rfl

/-- Witness for C10 at a workload with one container and no declared ports. -/
theorem renderService_clusterIP_defaults_w :
    (renderService wNoPorts).serviceType = "ClusterIP"
    ∧ (renderService wNoPorts).ports = some [] :=
  ⟨(renderService_clusterIP_defaults wNoPorts).1,
   (renderService_clusterIP_defaults wNoPorts).2 rfl⟩

/-- C6: `renderDeployment` copies the workload's replica count verbatim, uses
the workload's pod template as the child's pod template, and injects the
`component.oam.dev/name = workload.name` label into both the child's
selector and the pod template's labels, the injected binding overriding any
pre-existing label of that key. -/
theorem renderDeployment_scale_unit_shape (w : Containerized) :
    (renderDeployment w).replicas = w.replicas
    ∧ (renderDeployment w).template.spec = w.podSpec
    ∧ (renderDeployment w).selector.matchLabels = [(labelNameKey, w.name)]
    ∧ lookupKey (renderDeployment w).selector.matchLabels labelNameKey = some w.name
    ∧ lookupKey (renderDeployment w).template.labels labelNameKey = some w.name := by
  refine ⟨rfl, rfl, rfl, ?_, ?_⟩
  · show lookupKey [(labelNameKey, w.name)] labelNameKey = some w.name
    simp [lookupKey]
  · rw [renderDeployment_template_labels, lookupKey_mergeKeepDst]
    simp [lookupKey]

/-- C8: two workloads with distinct names render deployments with unequal
selectors. -/
theorem renderDeployment_selector_injective (A B : Containerized)
    (h : A.name ≠ B.name) :
    (renderDeployment A).selector ≠ (renderDeployment B).selector := by
  rw [renderDeployment_selector, renderDeployment_selector]
  intro heq
  have h2 := congrArg LabelSelector.matchLabels heq
  simp at h2
  exact h h2

/-- Witness for C8 at the two concrete workloads `web` and `api`. -/
theorem renderDeployment_selector_injective_w :
    wWeb.name ≠ wApi.name
    ∧ (renderDeployment wWeb).selector ≠ (renderDeployment wApi).selector :=
  ⟨by decide, renderDeployment_selector_injective wWeb wApi (by decide)⟩

/-- Counterexample to C7 as stated: a user label on the workload is not
propagated onto the rendered Service (the top-level ServiceFront child), and
the service carries no annotation entries at all. -/
theorem service_receives_no_user_labels :
    lookupKey wLabeled.labels "app" = some "x"
    ∧ lookupKey (renderService wLabeled).labels "app" = none
    ∧ (renderService wLabeled).annos = [] := by
  refine ⟨by decide, by decide, by decide⟩

/-- C7 (amended): label and annotation propagation happens for the
deployment child only: every user label and annotation of the workload is
copied onto the deployment and onto its pod template, where the injected
`component.oam.dev/name` label takes precedence over a workload label of the
same key. -/
theorem renderDeployment_propagates_labels_annos (w : Containerized)
    (k v : String) :
    (lookupKey w.labels k = some v →
      lookupKey (renderDeployment w).labels k = some v
      ∧ lookupKey (renderDeployment w).template.labels k
          = some (if k = labelNameKey then w.name else v))
    ∧ (lookupKey w.annos k = some v →
      lookupKey (renderDeployment w).annos k = some v
      ∧ lookupKey (renderDeployment w).template.annos k = some v) := by
  constructor
  · intro hl
    constructor
    · rw [renderDeployment_labels, lookupKey_mergeKeepDst]
      simp [lookupKey, hl]
    · rw [renderDeployment_template_labels, lookupKey_mergeKeepDst]
      by_cases hk : labelNameKey = k
      · subst hk
        simp [lookupKey]
      · have hk2 : ¬(k = labelNameKey) := fun h => hk h.symm
        simp [lookupKey, hk, hk2, hl]
  · intro ha
    constructor
    · rw [renderDeployment_annos, lookupKey_mergeKeepDst]
      simp [lookupKey, ha]
    · rw [renderDeployment_template_annos, lookupKey_mergeKeepDst]
      simp [lookupKey, ha]

/-- Witness for the amended C7 on the labeled workload: its `app` label and
`owner` annotation entry reach the deployment and pod template, while the
injected label beats the workload's `rogue` binding of the same key. -/
theorem renderDeployment_propagates_labels_annos_w :
    (lookupKey (renderDeployment wLabeled).labels "app" = some "x"
      ∧ lookupKey (renderDeployment wLabeled).template.labels "app"
          = some (if "app" = labelNameKey then wLabeled.name else "x"))
    ∧ (lookupKey (renderDeployment wLabeled).annos "owner" = some "alice"
      ∧ lookupKey (renderDeployment wLabeled).template.annos "owner" = some "alice")
    ∧ lookupKey (renderDeployment wLabeled).template.labels labelNameKey
        = some (if labelNameKey = labelNameKey then wLabeled.name else "rogue") :=
  ⟨(renderDeployment_propagates_labels_annos wLabeled "app" "x").1 (by decide),
   (renderDeployment_propagates_labels_annos wLabeled "owner" "alice").2 (by decide),
   ((renderDeployment_propagates_labels_annos wLabeled labelNameKey "rogue").1
      (by decide)).2⟩

/-- C4: when the workload identity is not found in the store, the cycle
terminates successfully: empty result (no error, no requeue), zero events,
zero conditions and zero status writes. -/
theorem reconcile_not_found_clean_exit (env : Env)
    (h : env.fetch = FetchOutcome.notFound) :
    Reconcile env =
      { result := doneResult, err := none, events := [],
        conditions := [], statusWrites := [] } := by
  unfold Reconcile
  rw [h]

/-- Witness for C4 at the fixture whose store lookup reports not-found. -/
theorem reconcile_not_found_clean_exit_w :
    Reconcile envNotFound =
      { result := doneResult, err := none, events := [],
        conditions := [], statusWrites := [] } :=
  reconcile_not_found_clean_exit envNotFound rfl

/-- C2: when applying the service fails after the deployment was applied
successfully, the cycle performs no status write at all, so the workload's
status resource list still holds whatever the previous successful cycle
wrote (or stays absent). -/
theorem reconcile_service_apply_failure_leaves_status (env : Env)
    (w : Containerized) (u e : String)
    (hf : env.fetch = FetchOutcome.ok w)
    (had : env.applyDeployment = Except.ok u)
    (has : env.applyService = Except.error e) :
    (Reconcile env).statusWrites = []
    ∧ ∀ prev, resourcesAfter (Reconcile env) prev = prev := by
  have hsw : (Reconcile env).statusWrites = [] := by
    unfold Reconcile
    rw [hf]
    cases hbd : env.bindDeployment with
    | some e2 => simp [renderDeploymentR]
    | none =>
      simp only [renderDeploymentR, had]
      cases hbs : env.bindService with
      | some e3 => simp [renderServiceR]
      | none => simp [renderServiceR, has]
  exact ⟨hsw, fun prev => by simp [resourcesAfter, hsw]⟩

/-- Witness for C2: with the previous cycle having recorded a reference, a
cycle whose service apply fails leaves that reference in place. -/
theorem reconcile_service_apply_failure_leaves_status_w :
    (Reconcile envSvcFail).statusWrites = []
    ∧ resourcesAfter (Reconcile envSvcFail)
        (some [{ apiVersion := "apps/v1", kind := "Deployment",
                 name := "web", uid := "old" }])
      = some [{ apiVersion := "apps/v1", kind := "Deployment",
                name := "web", uid := "old" }] :=
  ⟨(reconcile_service_apply_failure_leaves_status envSvcFail wWeb "uid-d"
      "store unreachable" rfl rfl rfl).1,
   (reconcile_service_apply_failure_leaves_status envSvcFail wWeb "uid-d"
      "store unreachable" rfl rfl rfl).2 _⟩

/-- C5: a fully successful cycle performs exactly one status write, replacing
the resource list in full with exactly two typed references — the deployment
first, then the service — each carrying the child's API version, kind, name
and the unique identifier assigned by the store; the outcome is independent
of whatever the list held before. -/
theorem reconcile_success_writes_two_refs (env : Env) (w : Containerized)
    (du su : String)
    (hf : env.fetch = FetchOutcome.ok w)
    (hbd : env.bindDeployment = none)
    (had : env.applyDeployment = Except.ok du)
    (hbs : env.bindService = none)
    (has : env.applyService = Except.ok su)
    (hsu : env.statusUpdate = none) :
    (Reconcile env).statusWrites
      = [[{ apiVersion := deploymentAPIVersion, kind := deploymentKind,
            name := w.name, uid := du },
          { apiVersion := serviceAPIVersion, kind := serviceKind,
            name := w.name, uid := su }]]
    ∧ ∀ prev, resourcesAfter (Reconcile env) prev
        = some [{ apiVersion := deploymentAPIVersion, kind := deploymentKind,
                  name := w.name, uid := du },
                { apiVersion := serviceAPIVersion, kind := serviceKind,
                  name := w.name, uid := su }] := by
  have hsw : (Reconcile env).statusWrites
      = [[{ apiVersion := deploymentAPIVersion, kind := deploymentKind,
            name := w.name, uid := du },
          { apiVersion := serviceAPIVersion, kind := serviceKind,
            name := w.name, uid := su }]] := by
    unfold Reconcile
    rw [hf]
    simp only [hbd, had, hbs, has, hsu, renderDeploymentR, renderServiceR]
    rfl
  exact ⟨hsw, fun prev => by simp [resourcesAfter, hsw]⟩

/-- Witness for C5 at the all-successful fixture. -/
theorem reconcile_success_writes_two_refs_w :
    (Reconcile envAllOk).statusWrites
      = [[{ apiVersion := "apps/v1", kind := "Deployment",
            name := "web", uid := "uid-d" },
          { apiVersion := "v1", kind := "Service",
            name := "web", uid := "uid-s" }]]
    ∧ resourcesAfter (Reconcile envAllOk) none
      = some [{ apiVersion := "apps/v1", kind := "Deployment",
                name := "web", uid := "uid-d" },
              { apiVersion := "v1", kind := "Service",
                name := "web", uid := "uid-s" }] :=
  ⟨(reconcile_success_writes_two_refs envAllOk wWeb "uid-d" "uid-s"
      rfl rfl rfl rfl rfl rfl).1,
   (reconcile_success_writes_two_refs envAllOk wWeb "uid-d" "uid-s"
      rfl rfl rfl rfl rfl rfl).2 none⟩

/-- Counterexample to C3 as stated: when binding ownership of the deployment
fails, the reported classification is `cannot render deployment` — a
render-phase classification, distinct from both apply classifications. -/
theorem ownership_bind_failure_not_apply_classified :
    (Reconcile envBindFail).conditions
      = [Condition.reconcileError errRenderDeployment
           "owner lacks a unique identifier"]
    ∧ (Reconcile envBindFail).events
      = [REvent.warning errRenderDeployment "owner lacks a unique identifier"]
    ∧ errRenderDeployment ≠ errApplyDeployment
    ∧ errRenderDeployment ≠ errApplyService := by
  refine ⟨by decide, by decide, by decide, by decide⟩

/-- C3 (amended): an ownership-binding failure surfaces from the cycle as a
render-phase failure — `cannot render deployment` for the deployment child,
`cannot render service` for the service child — in both the warning event
and the patched condition, with a requeue-after-delay result. -/
theorem ownership_bind_failure_render_classified (env : Env)
    (w : Containerized) (e : String)
    (hf : env.fetch = FetchOutcome.ok w) :
    (env.bindDeployment = some e →
      (Reconcile env).result = reconcileWaitResult
      ∧ (Reconcile env).events = [REvent.warning errRenderDeployment e]
      ∧ (Reconcile env).conditions
          = [Condition.reconcileError errRenderDeployment e])
    ∧ (∀ u, env.bindDeployment = none → env.applyDeployment = Except.ok u →
        env.bindService = some e →
      (Reconcile env).result = reconcileWaitResult
      ∧ (Reconcile env).conditions
          = [Condition.reconcileError errRenderService e]) := by
  constructor
  · intro hbd
    unfold Reconcile
    rw [hf, hbd]
    exact ⟨rfl, rfl, rfl⟩
  · intro u hbd had hbs
    unfold Reconcile
    rw [hf, hbd, had, hbs]
    exact ⟨rfl, rfl⟩

/-- Witness for the amended C3 at the fixture whose deployment bind fails. -/
theorem ownership_bind_failure_render_classified_w :
    (Reconcile envBindFail).result = reconcileWaitResult
    ∧ (Reconcile envBindFail).events
        = [REvent.warning errRenderDeployment "owner lacks a unique identifier"]
    ∧ (Reconcile envBindFail).conditions
        = [Condition.reconcileError errRenderDeployment
             "owner lacks a unique identifier"] :=
  (ownership_bind_failure_render_classified envBindFail wWeb
    "owner lacks a unique identifier" rfl).1 rfl

/-- C9 on the code as written: when applying the service fails, the patched
condition carries `cannot apply the service` and the cycle requeues after
the delay, but the emitted warning event carries the `cannot apply the
deployment` classification — the two classifications differ. -/
theorem service_apply_failure_event_misclassified :
    (Reconcile envSvcFail).result = reconcileWaitResult
    ∧ (Reconcile envSvcFail).conditions
        = [Condition.reconcileError errApplyService "store unreachable"]
    ∧ (Reconcile envSvcFail).events
        = [REvent.normal "Deployment created"
             "Workload web successfully patched a deployment web",
           REvent.warning errApplyDeployment "store unreachable"]
    ∧ errApplyDeployment ≠ errApplyService := by
  refine ⟨by decide, by decide, by decide, by decide⟩
